import Mathlib

/-!
Verification of the orchestration core of a voice-assistant client
(`src/application.py`).  The Python class `Application` is shallowly
embedded: its mutable fields become an explicit `AppState` record, and
each method becomes a pure function from the state (plus the outcomes of
external calls, passed as parameters) to a new state together with an
ordered list of observable `Effect`s.  The order of the effect list
mirrors the execution order in the source; effects emitted by a worker
thread spawned at the end of a method are placed after a
`spawnAbortThread` marker, which is sound because the spawning method
performs no further actions after starting the thread.
-/

namespace Chatbot

/-- Device states, from `src/constants/constants.py` usage in
`application.py`: IDLE, CONNECTING, LISTENING, SPEAKING. -/
inductive DeviceState where
  | idle
  | connecting
  | listening
  | speaking
  deriving DecidableEq, Repr

/-- Abort reasons: NONE and WAKE_WORD_DETECTED. -/
inductive AbortReason where
  | noReason
  | wakeWordDetected
  deriving DecidableEq, Repr

/-- Listening modes: MANUAL and AUTO_STOP. -/
inductive ListeningMode where
  | manual
  | autoStop
  deriving DecidableEq, Repr

/-- Observable actions performed by the embedded methods, in execution
order.  Display, protocol, audio-codec and wake-word-detector calls are
all modelled as effects; `scheduleSetState st` is the closure
`lambda: self.set_device_state(st)` handed to `schedule`. -/
inductive Effect where
  | updateStatus (msg : String)
  | setEmotion (emotion : String)
  | updateIotStates
  | wakeWordPause
  | wakeWordResume
  | resumeAudioInput
  | notifySubscriber (id : Nat) (st : DeviceState)
  | setAborted (b : Bool)
  | setTtsPlaying (b : Bool)
  | clearAudioQueue
  | sleepMs (ms : Nat)
  | spawnAbortThread
  | sendAbortSpeaking (reason : AbortReason) (timeoutSec : Nat)
  | logError (msg : String)
  | logWarning (msg : String)
  | scheduleSetState (st : DeviceState)
  | scheduleToggleChat
  | alert (title msg : String)
  | openAudioChannel (timeoutSec : Nat)
  | reinitInputStream
  | sendStartListening (mode : ListeningMode)
  | playAudio
  | readAudio
  | sendAudio
  | closeAudioChannel
  deriving DecidableEq, Repr

/-- The mutable fields of `Application` that the verified methods read
or write.  Optional collaborators (`audio_codec`, `wake_word_detector`,
`protocol`) are modelled by a presence flag plus the boolean status the
code queries on them; `subscribers` is `on_state_changed_callbacks`
as a list of callback identifiers in registration order. -/
structure AppState where
  device_state : DeviceState
  keep_listening : Bool
  aborted : Bool
  is_tts_playing : Bool
  hasAudioCodec : Bool
  audioInputPaused : Bool
  hasWakeWordDetector : Bool
  wakeWordPaused : Bool
  wakeWordRunning : Bool
  hasProtocol : Bool
  audioChannelOpened : Bool
  subscribers : List Nat
  deriving DecidableEq, Repr

/-- State-entry actions of `set_device_state`: the `if state == ...`
block that runs after the assignment, before the subscriber
notification loop. -/
def entryActions (s : AppState) (st : DeviceState) : AppState × List Effect :=
  match st with
  | DeviceState.idle =>
    let e0 := [Effect.updateStatus "Standby", Effect.setEmotion "neutral"]
    let (s1, e1) :=
      if s.hasWakeWordDetector ∧ s.wakeWordPaused then
        ({ s with wakeWordPaused := false }, [Effect.wakeWordResume])
      else (s, [])
    let (s2, e2) :=
      if s1.hasAudioCodec ∧ s1.audioInputPaused then
        ({ s1 with audioInputPaused := false }, [Effect.resumeAudioInput])
      else (s1, [])
    (s2, e0 ++ e1 ++ e2)
  | DeviceState.connecting =>
    (s, [Effect.updateStatus "Connecting..."])
  | DeviceState.listening =>
    let e0 := [Effect.updateStatus "Listening...", Effect.setEmotion "neutral",
               Effect.updateIotStates]
    let (s1, e1) :=
      if s.hasWakeWordDetector ∧ s.wakeWordRunning then
        ({ s with wakeWordPaused := true }, [Effect.wakeWordPause])
      else (s, [])
    let (s2, e2) :=
      if s1.hasAudioCodec ∧ s1.audioInputPaused then
        ({ s1 with audioInputPaused := false }, [Effect.resumeAudioInput])
      else (s1, [])
    (s2, e0 ++ e1 ++ e2)
  | DeviceState.speaking =>
    let e0 := [Effect.updateStatus "Speaking..."]
    let (s1, e1) :=
      if s.hasWakeWordDetector ∧ s.wakeWordPaused then
        ({ s with wakeWordPaused := false }, [Effect.wakeWordResume])
      else (s, [])
    (s1, e0 ++ e1)

/-- `Application.set_device_state`: no-op when the state is unchanged;
otherwise assign the new state, run the entry actions, then notify every
registered state-change callback, in registration order. -/
def set_device_state (s : AppState) (st : DeviceState) : AppState × List Effect :=
  if s.device_state = st then (s, [])
  else
    let s1 : AppState := { s with device_state := st }
    ((entryActions s1 st).1,
     (entryActions s1 st).2 ++ s.subscribers.map (fun c => Effect.notifySubscriber c st))

/-- Recogniser for subscriber-notification effects. -/
def isNotify : Effect → Bool
  | Effect.notifySubscriber _ _ => true
  | _ => false

theorem entryActions_no_notify (s : AppState) (st : DeviceState) :
    ((entryActions s st).2).all (fun e => !isNotify e) = true := by
  cases st <;> simp only [entryActions] <;> (repeat' split) <;> simp [isNotify]

theorem entryActions_device_state (s : AppState) (st : DeviceState) :
    (entryActions s st).1.device_state = s.device_state := by
  cases st <;> simp only [entryActions] <;> (repeat' split) <;> simp

/-- Task-scheduler events at the atomicity granularity given by the
queue lock `self.mutex`: `enq i` is one `schedule(callback)` critical
section (append), `take` is the copy-and-clear critical section at the
top of `_process_scheduled_tasks`, and `run` executes one task of the
batch taken out, outside the lock. -/
inductive SchedEvent where
  | enq (id : Nat)
  | take
  | run
  deriving DecidableEq, Repr

/-- Scheduler state: `main_tasks` is the locked queue, `batch` the
sequence copied out by a drain but not yet executed, `executed` the
tasks already run, in execution order. -/
structure SchedState where
  main_tasks : List Nat
  batch : List Nat
  executed : List Nat
  deriving DecidableEq, Repr

/-- One atomic step of the scheduler. -/
def schedStep (s : SchedState) : SchedEvent → SchedState
  | SchedEvent.enq i => { s with main_tasks := s.main_tasks ++ [i] }
  | SchedEvent.take => { s with batch := s.batch ++ s.main_tasks, main_tasks := [] }
  | SchedEvent.run =>
    match s.batch with
    | [] => s
    | t :: rest => { s with batch := rest, executed := s.executed ++ [t] }

/-- Run a whole interleaving of enqueues, drain-takes and task runs. -/
def schedRun (s : SchedState) : List SchedEvent → SchedState
  | [] => s
  | e :: es => schedRun (schedStep s e) es

/-- The ids enqueued by a trace, in submission order. -/
def enqIds : List SchedEvent → List Nat
  | [] => []
  | SchedEvent.enq i :: es => i :: enqIds es
  | SchedEvent.take :: es => enqIds es
  | SchedEvent.run :: es => enqIds es

/-- The scheduler conservation invariant: executed tasks, the pending
batch and the queue together are exactly the enqueued ids, in order. -/
theorem schedRun_conservation (tr : List SchedEvent) (s : SchedState) :
    (schedRun s tr).executed ++ (schedRun s tr).batch ++ (schedRun s tr).main_tasks =
      s.executed ++ s.batch ++ s.main_tasks ++ enqIds tr := by
  induction tr generalizing s with
  | nil => simp [schedRun, enqIds]
  | cons e es ih =>
    cases e with
    | enq i =>
      simp only [schedRun, schedStep, enqIds, ih]
      simp
    | take =>
      simp only [schedRun, schedStep, enqIds, ih]
      simp
    | run =>
      simp only [schedRun, schedStep, enqIds]
      cases hb : s.batch with
      | nil =>
        rw [ih]
        simp [hb]
      | cons t rest =>
        rw [ih]
        simp [hb]

theorem schedRun_no_take (tr : List SchedEvent) (s : SchedState)
    (h : ∀ e ∈ tr, e ≠ SchedEvent.take) :
    (schedRun s tr).executed ++ (schedRun s tr).batch = s.executed ++ s.batch ∧
    (schedRun s tr).main_tasks = s.main_tasks ++ enqIds tr := by
  induction tr generalizing s with
  | nil => simp [schedRun, enqIds]
  | cons e es ih =>
    have he : e ≠ SchedEvent.take := h e (List.mem_cons_self e es)
    have hes : ∀ x ∈ es, x ≠ SchedEvent.take :=
      fun x hx => h x (List.mem_cons_of_mem e hx)
    cases e with
    | enq i =>
      have := ih (s := { s with main_tasks := s.main_tasks ++ [i] }) hes
      simpa [schedRun, schedStep, enqIds] using this
    | take => exact absurd rfl he
    | run =>
      cases hb : s.batch with
      | nil =>
        have := ih (s := s) hes
        simp only [schedRun, schedStep, hb]
        simpa [enqIds, hb] using this
      | cons t rest =>
        have := ih (s := { s with batch := rest, executed := s.executed ++ [t] }) hes
        simp only [schedRun, schedStep, hb]
        simp only [enqIds]
        refine ⟨?_, this.2⟩
        rw [this.1]
        simp [hb]

/-- A sample application state used to instantiate the theorems. -/
def sampleIdle : AppState :=
  { device_state := DeviceState.idle, keep_listening := false, aborted := false,
    is_tts_playing := false, hasAudioCodec := true, audioInputPaused := false,
    hasWakeWordDetector := true, wakeWordPaused := true, wakeWordRunning := false,
    hasProtocol := true, audioChannelOpened := false, subscribers := [0, 1] }

/-- Claim C1: calling `set_device_state(next)` with `next` equal to the
current state is a complete no-op (state unchanged, zero entry actions,
zero subscriber notifications); when `next` differs, the device state
changes exactly once, to `next`, the entry actions for `next` run, and
then every registered subscriber is notified with `next`, in
registration order (the effect list is an entry-action block free of
notifications followed by exactly the subscriber notifications in
list order). -/
theorem C1_set_device_state_transition (s : AppState) (st : DeviceState) :
    (s.device_state = st → set_device_state s st = (s, [])) ∧
    (s.device_state ≠ st →
      (set_device_state s st).1.device_state = st ∧
      ∃ entry, entry.all (fun e => !isNotify e) = true ∧
        (set_device_state s st).2 =
          entry ++ s.subscribers.map (fun c => Effect.notifySubscriber c st)) := by
  constructor
  · intro h
    simp [set_device_state, h]
  · intro h
    simp only [set_device_state, if_neg h]
    refine ⟨?_, (entryActions { s with device_state := st } st).2,
      entryActions_no_notify _ _, rfl⟩
    rw [entryActions_device_state]

/-- Witness for C1 at a concrete state: a same-state call is a no-op and
a differing-state call installs the new state. -/
theorem C1_witness :
    set_device_state sampleIdle DeviceState.idle = (sampleIdle, []) ∧
    (set_device_state sampleIdle DeviceState.speaking).1.device_state =
      DeviceState.speaking := by
  have h1 := C1_set_device_state_transition sampleIdle DeviceState.idle
  have h2 := C1_set_device_state_transition sampleIdle DeviceState.speaking
  exact ⟨h1.1 rfl, (h2.2 (by decide)).1⟩

/-- Claim C2: in every interleaving of enqueues with drain ticks, no
scheduled task is lost or duplicated — the executed tasks followed by
the pending batch and queue are exactly the enqueued ids in submission
order, so each id is executed at most once and, once the queue and
batch are empty, exactly once; moreover the drain-take is atomic, tasks
within a drain run in insertion order (the executed list is always a
prefix of the submission order), and a task enqueued after a take (that
is, during a drain in progress) sits in the queue, untouched until a
later tick. -/
theorem C2_scheduler_no_lost_no_dup (tr tr2 : List SchedEvent) (s : SchedState)
    (hTr2 : ∀ e ∈ tr2, e ≠ SchedEvent.take) :
    ((schedRun ⟨[], [], []⟩ tr).executed ++ (schedRun ⟨[], [], []⟩ tr).batch ++
        (schedRun ⟨[], [], []⟩ tr).main_tasks = enqIds tr) ∧
    ((schedRun ⟨[], [], []⟩ tr).executed <+: enqIds tr) ∧
    (∀ i, ((schedRun ⟨[], [], []⟩ tr).executed ++ (schedRun ⟨[], [], []⟩ tr).batch ++
        (schedRun ⟨[], [], []⟩ tr).main_tasks).count i = (enqIds tr).count i) ∧
    ((schedRun ⟨[], [], []⟩ tr).batch = [] → (schedRun ⟨[], [], []⟩ tr).main_tasks = [] →
        (schedRun ⟨[], [], []⟩ tr).executed = enqIds tr) ∧
    ((schedRun s tr2).executed ++ (schedRun s tr2).batch = s.executed ++ s.batch ∧
        (schedRun s tr2).main_tasks = s.main_tasks ++ enqIds tr2) := by
  have hc := schedRun_conservation tr ⟨[], [], []⟩
  simp only [List.nil_append] at hc
  have hpre : (schedRun ⟨[], [], []⟩ tr).executed <+: enqIds tr := by
    refine ⟨(schedRun ⟨[], [], []⟩ tr).batch ++ (schedRun ⟨[], [], []⟩ tr).main_tasks, ?_⟩
    rw [← List.append_assoc]
    exact hc
  refine ⟨hc, hpre, fun i => by rw [hc], ?_, schedRun_no_take tr2 s hTr2⟩
  intro hb hm
  have h2 := hc
  rw [hb, hm] at h2
  simpa using h2

/-- Witness for C2 on a concrete interleaving: two tasks enqueued, a
drain-take, then a task enqueued mid-drain, the batch run, and a later
drain; every task runs exactly once in submission order. -/
theorem C2_witness :
    (schedRun ⟨[], [], []⟩
        [SchedEvent.enq 10, SchedEvent.enq 11, SchedEvent.take, SchedEvent.enq 12,
         SchedEvent.run, SchedEvent.run, SchedEvent.take, SchedEvent.run]).executed =
      [10, 11, 12] ∧
    (schedRun ⟨[], [], []⟩
        [SchedEvent.enq 10, SchedEvent.enq 11, SchedEvent.take, SchedEvent.enq 12,
         SchedEvent.run, SchedEvent.run, SchedEvent.take, SchedEvent.run]).executed =
      enqIds [SchedEvent.enq 10, SchedEvent.enq 11, SchedEvent.take, SchedEvent.enq 12,
         SchedEvent.run, SchedEvent.run, SchedEvent.take, SchedEvent.run] := by
  have h := C2_scheduler_no_lost_no_dup
    [SchedEvent.enq 10, SchedEvent.enq 11, SchedEvent.take, SchedEvent.enq 12,
     SchedEvent.run, SchedEvent.run, SchedEvent.take, SchedEvent.run]
    [SchedEvent.enq 7] ⟨[], [], []⟩ (by decide)
  have h4 := h.2.2.2.1 (by decide) (by decide)
  exact ⟨by rw [h4]; decide, h4⟩

/-- The three event types of `self.events`, in the insertion order of
the dictionary (Python dicts iterate in insertion order):
SCHEDULE_EVENT, AUDIO_INPUT_READY_EVENT, AUDIO_OUTPUT_READY_EVENT. -/
inductive EventType where
  | scheduleEvent
  | audioInputReady
  | audioOutputReady
  deriving DecidableEq, Repr

/-- The three boolean event flags (`threading.Event` objects). -/
structure EventFlags where
  scheduleFlag : Bool
  audioInputFlag : Bool
  audioOutputFlag : Bool
  deriving DecidableEq, Repr

/-- Read one flag (`event.is_set()`). -/
def getFlag (e : EventType) (f : EventFlags) : Bool :=
  match e with
  | EventType.scheduleEvent => f.scheduleFlag
  | EventType.audioInputReady => f.audioInputFlag
  | EventType.audioOutputReady => f.audioOutputFlag

/-- Clear one flag (`event.clear()`). -/
def clearFlag (e : EventType) (f : EventFlags) : EventFlags :=
  match e with
  | EventType.scheduleEvent => { f with scheduleFlag := false }
  | EventType.audioInputReady => { f with audioInputFlag := false }
  | EventType.audioOutputReady => { f with audioOutputFlag := false }

/-- Set one flag (`event.set()`), as producer threads do. -/
def setFlag (e : EventType) (f : EventFlags) : EventFlags :=
  match e with
  | EventType.scheduleEvent => { f with scheduleFlag := true }
  | EventType.audioInputReady => { f with audioInputFlag := true }
  | EventType.audioOutputReady => { f with audioOutputFlag := true }

/-- One examination of one event inside a `_main_loop` tick: if the
flag is set, clear it first, then run the handler.  `h` is the effect
the handler itself has on the flags (a scheduled task may set them
again).  The returned list records, for each handler invocation, the
flag state at the moment the handler starts. -/
def examineEvent (h : EventType → EventFlags → EventFlags) (e : EventType)
    (f : EventFlags) : List (EventType × EventFlags) × EventFlags :=
  if getFlag e f then
    ([(e, clearFlag e f)], h e (clearFlag e f))
  else ([], f)

/-- One tick of `_main_loop`: the events dictionary is iterated in its
fixed insertion order SCHEDULE, AUDIO_INPUT_READY, AUDIO_OUTPUT_READY,
each entry being examined, cleared and handled in turn. -/
def mainLoopTick (h : EventType → EventFlags → EventFlags) (f : EventFlags) :
    List (EventType × EventFlags) × EventFlags :=
  let r1 := examineEvent h EventType.scheduleEvent f
  let r2 := examineEvent h EventType.audioInputReady r1.2
  let r3 := examineEvent h EventType.audioOutputReady r2.2
  (r1.1 ++ r2.1 ++ r3.1, r3.2)

theorem getFlag_clearFlag (e : EventType) (f : EventFlags) :
    getFlag e (clearFlag e f) = false := by
  cases e <;> rfl

theorem examineEvent_fst (h : EventType → EventFlags → EventFlags)
    (e : EventType) (f : EventFlags) :
    List.Sublist ((examineEvent h e f).1.map Prod.fst) [e] := by
  unfold examineEvent
  split <;> simp

theorem examineEvent_mem (h : EventType → EventFlags → EventFlags)
    (e : EventType) (f : EventFlags) (p : EventType × EventFlags)
    (hp : p ∈ (examineEvent h e f).1) : p = (e, clearFlag e f) := by
  unfold examineEvent at hp
  split at hp <;> simp_all

/-- Claim C3: each tick examines the three flags in the fixed order
SCHEDULE, AUDIO_INPUT_READY, AUDIO_OUTPUT_READY (the invocation list is
always a sublist of that order, so each handler runs at most once per
tick); every flag that triggers a handler has been cleared before the
handler starts (edge consumption); setting a flag is idempotent, so any
number of sets between two observations collapses to one; and with a
flag-inert handler a tick performs exactly one invocation per set
flag. -/
theorem C3_main_loop_tick_edge_triggered
    (h : EventType → EventFlags → EventFlags) (f : EventFlags) :
    (List.Sublist ((mainLoopTick h f).1.map Prod.fst)
      [EventType.scheduleEvent, EventType.audioInputReady, EventType.audioOutputReady]) ∧
    (∀ p ∈ (mainLoopTick h f).1, getFlag p.1 p.2 = false) ∧
    (∀ e f0, setFlag e (setFlag e f0) = setFlag e f0) ∧
    ((mainLoopTick (fun _ g => g) f).1.map Prod.fst =
      (if f.scheduleFlag then [EventType.scheduleEvent] else []) ++
      (if f.audioInputFlag then [EventType.audioInputReady] else []) ++
      (if f.audioOutputFlag then [EventType.audioOutputReady] else [])) := by
  refine ⟨?_, ?_, ?_, ?_⟩
  · show List.Sublist ((mainLoopTick h f).1.map Prod.fst)
      ([EventType.scheduleEvent] ++ [EventType.audioInputReady] ++ [EventType.audioOutputReady])
    simp only [mainLoopTick, List.map_append]
    exact ((examineEvent_fst h _ _).append (examineEvent_fst h _ _)).append
      (examineEvent_fst h _ _)
  · intro p hp
    simp only [mainLoopTick, List.mem_append] at hp
    rcases hp with (hp | hp) | hp <;>
      rw [examineEvent_mem h _ _ p hp] <;> exact getFlag_clearFlag _ _
  · intro e f0
    cases e <;> rfl
  · rcases f with ⟨a, b, c⟩
    cases a <;> cases b <;> cases c <;> rfl

/-- Witness for C3: a tick with all three flags set and an inert
handler invokes the three handlers once each, in the fixed order, and
leaves all flags cleared. -/
theorem C3_witness :
    ((mainLoopTick (fun _ g => g) ⟨true, true, true⟩).1.map Prod.fst =
      [EventType.scheduleEvent, EventType.audioInputReady, EventType.audioOutputReady]) ∧
    (∀ p ∈ (mainLoopTick (fun _ g => g) ⟨true, true, true⟩).1, getFlag p.1 p.2 = false) := by
  have h := C3_main_loop_tick_edge_triggered (fun _ g => g) ⟨true, true, true⟩
  exact ⟨by rw [h.2.2.2]; rfl, h.2.1⟩

/-- `Application.abort_speaking(reason)`.  Ignored outright when
`self.aborted` is already true.  Otherwise: set `aborted`, clear the
TTS-playing flag, flush the pending output-audio queue (synchronously,
on the calling thread), pause the wake-word detector briefly when the
reason is a wake word, then start the `process_abort` worker thread,
which sends the abort control message with a 1-second timeout (failure
logged, not fatal), schedules the transition to IDLE, and, for a
wake-word abort with auto-listening on and the channel open, schedules
re-entry into the toggle flow after a short delay.  `sendOk` is the
outcome of the bounded abort-message send. -/
def abort_speaking (s : AppState) (reason : AbortReason) (sendOk : Bool) :
    AppState × List Effect :=
  if s.aborted then (s, [])
  else
    let s1 : AppState := { s with aborted := true, is_tts_playing := false }
    let e1 := [Effect.setAborted true, Effect.setTtsPlaying false] ++
      (if s1.hasAudioCodec then [Effect.clearAudioQueue] else [])
    let pauseWake : Bool := reason = AbortReason.wakeWordDetected ∧
      s1.hasWakeWordDetector ∧ s1.wakeWordRunning
    let s2 : AppState := if pauseWake then { s1 with wakeWordPaused := true } else s1
    let e2 := if pauseWake then [Effect.wakeWordPause, Effect.sleepMs 100] else []
    let e3 := [Effect.spawnAbortThread, Effect.sendAbortSpeaking reason 1] ++
      (if sendOk then [] else [Effect.logError "Error sending abort command"]) ++
      [Effect.scheduleSetState DeviceState.idle] ++
      (if reason = AbortReason.wakeWordDetected ∧ s1.keep_listening ∧
          s1.audioChannelOpened then
        [Effect.sleepMs 100, Effect.scheduleToggleChat]
      else [])
    (s2, e1 ++ e2 ++ e3)

/-- Recogniser for abort-message sends. -/
def isSendAbort : Effect → Bool
  | Effect.sendAbortSpeaking _ _ => true
  | _ => false

/-- Recogniser for a scheduled transition to IDLE. -/
def isScheduleIdle : Effect → Bool
  | Effect.scheduleSetState DeviceState.idle => true
  | _ => false

theorem abort_speaking_already_aborted (s : AppState) (reason : AbortReason)
    (sendOk : Bool) (h : s.aborted = true) :
    abort_speaking s reason sendOk = (s, []) := by
  simp [abort_speaking, h]

theorem abort_speaking_sets_aborted (s : AppState) (reason : AbortReason)
    (sendOk : Bool) (h : s.aborted = false) :
    (abort_speaking s reason sendOk).1.aborted = true := by
  simp only [abort_speaking, h, Bool.false_eq_true, if_false]
  split <;> rfl

theorem abort_speaking_counts (s : AppState) (reason : AbortReason)
    (sendOk : Bool) (h : s.aborted = false) :
    ((abort_speaking s reason sendOk).2.countP isSendAbort = 1 ∧
     (abort_speaking s reason sendOk).2.countP isScheduleIdle = 1) := by
  cases reason <;>
    simp only [abort_speaking, h, Bool.false_eq_true, if_false] <;>
    (repeat' split) <;> decide

/-- Claim C4: `abort_speaking` is idempotent — a call made while the
aborted flag is already true returns immediately, with the state
unchanged and no effect at all, so two rapid calls (the second arriving
before the flag is reset) produce exactly one abort control message and
exactly one scheduled transition to IDLE between them. -/
theorem C4_abort_speaking_idempotent (s : AppState) (r1 r2 : AbortReason)
    (ok1 ok2 : Bool) (h : s.aborted = false) :
    (∀ s2 : AppState, ∀ r : AbortReason, ∀ ok : Bool, s2.aborted = true →
      abort_speaking s2 r ok = (s2, [])) ∧
    (abort_speaking (abort_speaking s r1 ok1).1 r2 ok2).2 = [] ∧
    (((abort_speaking s r1 ok1).2 ++
        (abort_speaking (abort_speaking s r1 ok1).1 r2 ok2).2).countP isSendAbort = 1 ∧
     ((abort_speaking s r1 ok1).2 ++
        (abort_speaking (abort_speaking s r1 ok1).1 r2 ok2).2).countP isScheduleIdle = 1) := by
  have hset := abort_speaking_sets_aborted s r1 ok1 h
  have hsecond := abort_speaking_already_aborted (abort_speaking s r1 ok1).1 r2 ok2 hset
  have hcounts := abort_speaking_counts s r1 ok1 h
  refine ⟨fun s2 r ok h2 => abort_speaking_already_aborted s2 r ok h2, ?_, ?_, ?_⟩
  · rw [hsecond]
  · rw [hsecond]
    simpa using hcounts.1
  · rw [hsecond]
    simpa using hcounts.2

/-- Witness for C4 at a concrete speaking state. -/
def sampleSpeaking : AppState :=
  { device_state := DeviceState.speaking, keep_listening := true, aborted := false,
    is_tts_playing := true, hasAudioCodec := true, audioInputPaused := false,
    hasWakeWordDetector := true, wakeWordPaused := false, wakeWordRunning := true,
    hasProtocol := true, audioChannelOpened := true, subscribers := [0] }

theorem C4_witness :
    (abort_speaking (abort_speaking sampleSpeaking AbortReason.wakeWordDetected true).1
      AbortReason.wakeWordDetected true).2 = [] ∧
    ((abort_speaking sampleSpeaking AbortReason.wakeWordDetected true).2 ++
      (abort_speaking (abort_speaking sampleSpeaking AbortReason.wakeWordDetected true).1
        AbortReason.wakeWordDetected true).2).countP isSendAbort = 1 := by
  have h := C4_abort_speaking_idempotent sampleSpeaking AbortReason.wakeWordDetected
    AbortReason.wakeWordDetected true true rfl
  exact ⟨h.2.1, h.2.2.1⟩

/-- Claim C5: in every non-ignored execution of `abort_speaking`, the
aborted flag is set, then the TTS-playing flag is cleared, then the
output-audio queue is flushed, all synchronously before the worker
thread is spawned, and hence before the abort control message is sent;
the send carries a 1-second timeout, its failure is only logged, and in
either case the transition to IDLE is scheduled afterwards. -/
theorem C5_abort_speaking_order (s : AppState) (reason : AbortReason) (sendOk : Bool)
    (h : s.aborted = false) (hc : s.hasAudioCodec = true) :
    List.Sublist
      [Effect.setAborted true, Effect.setTtsPlaying false, Effect.clearAudioQueue,
       Effect.spawnAbortThread, Effect.sendAbortSpeaking reason 1,
       Effect.scheduleSetState DeviceState.idle]
      (abort_speaking s reason sendOk).2 ∧
    (sendOk = false →
      List.Sublist
        [Effect.sendAbortSpeaking reason 1, Effect.logError "Error sending abort command",
         Effect.scheduleSetState DeviceState.idle]
        (abort_speaking s reason sendOk).2) := by
  constructor
  · cases reason <;>
      simp only [abort_speaking, h, hc, Bool.false_eq_true, if_false] <;>
      (repeat' split) <;> first | decide | simp_all
  · intro hok
    subst hok
    cases reason <;>
      simp only [abort_speaking, h, hc, Bool.false_eq_true, if_false] <;>
      (repeat' split) <;> decide

/-- Witness for C5: the ordered sublist at a concrete speaking state
with a failing send. -/
theorem C5_witness :
    List.Sublist
      [Effect.setAborted true, Effect.setTtsPlaying false, Effect.clearAudioQueue,
       Effect.spawnAbortThread, Effect.sendAbortSpeaking AbortReason.noReason 1,
       Effect.scheduleSetState DeviceState.idle]
      (abort_speaking sampleSpeaking AbortReason.noReason false).2 ∧
    List.Sublist
      [Effect.sendAbortSpeaking AbortReason.noReason 1,
       Effect.logError "Error sending abort command",
       Effect.scheduleSetState DeviceState.idle]
      (abort_speaking sampleSpeaking AbortReason.noReason false).2 := by
  have h := C5_abort_speaking_order sampleSpeaking AbortReason.noReason false rfl rfl
  exact ⟨h.1, h.2 rfl⟩

/-- One iteration of the body of `_audio_output_event_trigger`,
observing a snapshot of the fields the thread reads.  The flag is set
only when the guard `device_state == SPEAKING and audio_codec and
output_stream` holds and the decode queue is non-empty; an exception
from the restart/reinitialization attempt is caught by the
iteration-level handler and skips the flag set. -/
structure OutputTriggerObs where
  device_state : DeviceState
  hasAudioCodec : Bool
  hasOutputStream : Bool
  outputStreamActive : Bool
  startStreamRaises : Bool
  reinitRaises : Bool
  decodeQueueEmpty : Bool
  deriving DecidableEq, Repr

/-- Whether the iteration sets AUDIO_OUTPUT_READY. -/
def audioOutputTriggerSetsFlag (o : OutputTriggerObs) : Bool :=
  if o.device_state = DeviceState.speaking ∧ o.hasAudioCodec ∧ o.hasOutputStream then
    if ¬o.outputStreamActive ∧ o.startStreamRaises ∧ o.reinitRaises then
      false
    else !o.decodeQueueEmpty
  else false

/-- Claim C6: the output trigger thread sets AUDIO_OUTPUT_READY only
when the device state is SPEAKING, the output stream exists, and the
pending decode queue is non-empty; in particular it never sets the
flag in the IDLE state, even with a non-empty playback queue. -/
theorem C6_output_trigger_guarded (o : OutputTriggerObs) :
    (audioOutputTriggerSetsFlag o = true →
      o.device_state = DeviceState.speaking ∧ o.hasOutputStream = true ∧
        o.decodeQueueEmpty = false) ∧
    (o.device_state = DeviceState.idle → audioOutputTriggerSetsFlag o = false) := by
  rcases o with ⟨d, a, b, c, e, f, g⟩
  cases d <;> cases a <;> cases b <;> cases c <;> cases e <;> cases f <;> cases g <;>
    exact ⟨fun h => by simp_all [audioOutputTriggerSetsFlag],
           fun h => by simp_all [audioOutputTriggerSetsFlag]⟩

/-- Witness for C6: with state IDLE and a non-empty queue the flag
stays clear; with state SPEAKING, stream present and queue non-empty
the guard facts follow from the theorem. -/
theorem C6_witness :
    audioOutputTriggerSetsFlag
      ⟨DeviceState.idle, true, true, true, false, false, false⟩ = false ∧
    (audioOutputTriggerSetsFlag
      ⟨DeviceState.speaking, true, true, true, false, false, false⟩ = true →
      (⟨DeviceState.speaking, true, true, true, false, false, false⟩ :
        OutputTriggerObs).device_state = DeviceState.speaking) := by
  refine ⟨(C6_output_trigger_guarded _).2 rfl, ?_⟩
  intro h
  exact ((C6_output_trigger_guarded _).1 h).1

/-- `Application._handle_output_audio`: bail out unless the device is
SPEAKING; otherwise mark TTS playback active and drive one unit of
output. -/
def handle_output_audio (s : AppState) : AppState × List Effect :=
  if s.device_state ≠ DeviceState.speaking then (s, [])
  else ({ s with is_tts_playing := true }, [Effect.setTtsPlaying true, Effect.playAudio])

/-- `Application._handle_input_audio`: bail out unless the device is
LISTENING; otherwise read one encoded unit and, when data arrived and a
channel is open, push it asynchronously to the session.  `dataRead`
is whether `read_audio()` returned data. -/
def handle_input_audio (s : AppState) (dataRead : Bool) : AppState × List Effect :=
  if s.device_state ≠ DeviceState.listening then (s, [])
  else
    (s, [Effect.readAudio] ++
      (if dataRead ∧ s.hasProtocol ∧ s.audioChannelOpened then [Effect.sendAudio] else []))

/-- Claim C10: the dispatch-loop audio handlers re-check the device
state first: handling AUDIO_OUTPUT_READY outside SPEAKING does nothing
(the TTS-playing flag is untouched and no audio is played), and
handling AUDIO_INPUT_READY outside LISTENING reads no audio and sends
nothing, so a stale ready flag never causes audio I/O in the wrong
state. -/
theorem C10_handlers_recheck_state (s : AppState) (dataRead : Bool) :
    (s.device_state ≠ DeviceState.speaking → handle_output_audio s = (s, [])) ∧
    (s.device_state ≠ DeviceState.listening → handle_input_audio s dataRead = (s, [])) := by
  constructor
  · intro h
    simp [handle_output_audio, h]
  · intro h
    simp [handle_input_audio, h]

/-- Witness for C10 at the concrete idle state. -/
theorem C10_witness :
    handle_output_audio sampleIdle = (sampleIdle, []) ∧
    handle_input_audio sampleIdle true = (sampleIdle, []) := by
  have h := C10_handlers_recheck_state sampleIdle true
  exact ⟨h.1 (by decide), h.2 (by decide)⟩

/-- `Application._handle_tts_start`: reset the aborted flag, mark TTS
playback active, clear stale audio, and from IDLE or LISTENING schedule
the transition to SPEAKING. -/
def handle_tts_start (s : AppState) : AppState × List Effect :=
  let s1 : AppState := { s with aborted := false, is_tts_playing := true }
  let e1 := [Effect.setAborted false, Effect.setTtsPlaying true, Effect.clearAudioQueue]
  if s1.device_state = DeviceState.idle ∨ s1.device_state = DeviceState.listening then
    (s1, e1 ++ [Effect.scheduleSetState DeviceState.speaking])
  else (s1, e1)

/-- `Application._on_network_error`: stop auto-listening, schedule the
IDLE transition, resume the wake-word detector if paused, and, when the
current state is not CONNECTING, schedule IDLE again and close (not
destroy) the audio channel. -/
def on_network_error (s : AppState) : AppState × List Effect :=
  let s1 : AppState := { s with keep_listening := false }
  let e1 := [Effect.scheduleSetState DeviceState.idle]
  let s2 : AppState :=
    if s1.hasWakeWordDetector ∧ s1.wakeWordPaused then { s1 with wakeWordPaused := false }
    else s1
  let e2 :=
    if s1.hasWakeWordDetector ∧ s1.wakeWordPaused then [Effect.wakeWordResume] else []
  if s2.device_state ≠ DeviceState.connecting then
    (s2, e1 ++ e2 ++ [Effect.scheduleSetState DeviceState.idle] ++
      (if s2.hasProtocol then [Effect.closeAudioChannel] else []))
  else (s2, e1 ++ e2)

/-- Helper for `_start_listening_impl`: the force-reinitialize block
and, on success, the MANUAL start-listening send followed by the
LISTENING transition; a raising reinitialization schedules IDLE and
resumes the wake-word detector, with no alert.  `reinitOk` is whether
`_reinitialize_input_stream` returned without raising. -/
def startListenFinish (s : AppState) (acc : List Effect) (reinitOk : Bool) :
    AppState × List Effect :=
  if s.hasAudioCodec then
    if reinitOk then
      (s, acc ++ [Effect.reinitInputStream, Effect.sendStartListening ListeningMode.manual,
                  Effect.scheduleSetState DeviceState.listening])
    else
      (if s.hasWakeWordDetector ∧ s.wakeWordPaused then { s with wakeWordPaused := false }
       else s,
       acc ++ [Effect.reinitInputStream, Effect.logError "Forced reinitialization failed",
               Effect.scheduleSetState DeviceState.idle] ++
         (if s.hasWakeWordDetector ∧ s.wakeWordPaused then [Effect.wakeWordResume] else []))
  else
    (s, acc ++ [Effect.logWarning "Cannot force reinitialization, audio_codec is None.",
                Effect.sendStartListening ListeningMode.manual,
                Effect.scheduleSetState DeviceState.listening])

/-- `Application._start_listening_impl`: guard on protocol presence,
stop auto-listening, pause the wake-word detector, and dispatch on the
device state.  From IDLE: schedule CONNECTING, open the audio channel
with a 10-second bounded wait unless already open (`openResult` is
`some b` for a result `b`, `none` for a raise or timeout; failure
alerts and schedules the revert to IDLE), then force-reinitialize the
input stream, send the MANUAL start-listening message and schedule
LISTENING.  From SPEAKING with no abort pending: delegate to
`abort_speaking`. -/
def start_listening_impl (s : AppState) (openResult : Option Bool)
    (reinitOk : Bool) (abortSendOk : Bool) : AppState × List Effect :=
  if ¬s.hasProtocol then (s, [Effect.logError "Protocol not initialized"])
  else
    let s0 : AppState := { s with keep_listening := false }
    let s1 : AppState :=
      if s0.hasWakeWordDetector then { s0 with wakeWordPaused := true } else s0
    let e1 : List Effect :=
      if s0.hasWakeWordDetector then [Effect.wakeWordPause] else []
    match s.device_state with
    | DeviceState.idle =>
      let e2 := e1 ++ [Effect.scheduleSetState DeviceState.connecting]
      if s1.audioChannelOpened then
        startListenFinish s1 e2 reinitOk
      else
        match openResult with
        | some true =>
          startListenFinish { s1 with audioChannelOpened := true }
            (e2 ++ [Effect.openAudioChannel 10]) reinitOk
        | some false =>
          (s1, e2 ++ [Effect.openAudioChannel 10,
            Effect.alert "Error" "Failed to open audio channel",
            Effect.scheduleSetState DeviceState.idle])
        | none =>
          (s1, e2 ++ [Effect.openAudioChannel 10,
            Effect.logError "Error occurred when opening audio channel",
            Effect.alert "Error" "Failed to open audio channel",
            Effect.scheduleSetState DeviceState.idle])
    | DeviceState.speaking =>
      if ¬s1.aborted then
        ((abort_speaking s1 AbortReason.wakeWordDetected abortSendOk).1,
         e1 ++ (abort_speaking s1 AbortReason.wakeWordDetected abortSendOk).2)
      else (s1, e1)
    | DeviceState.connecting => (s1, e1)
    | DeviceState.listening => (s1, e1)

/-- Recogniser for MANUAL start-listening sends. -/
def isSendStartManual : Effect → Bool
  | Effect.sendStartListening ListeningMode.manual => true
  | _ => false

set_option maxHeartbeats 1600000 in
/-- Claim C7: the manual start-listening flow fires only from IDLE (in
any other state it schedules no CONNECTING or LISTENING transition and
sends no MANUAL message); from IDLE it schedules CONNECTING, opens the
audio channel with a 10-second bounded wait, and on success
force-reinitializes the input stream, sends exactly one MANUAL
start-listening message and schedules LISTENING; if opening fails,
times out or raises, an alert is recorded, the state is scheduled back
to IDLE, and LISTENING is never entered. -/
theorem C7_start_listening_flow (s : AppState) (openResult : Option Bool)
    (reinitOk abortSendOk : Bool) (hp : s.hasProtocol = true) :
    (s.device_state ≠ DeviceState.idle →
      ((start_listening_impl s openResult reinitOk abortSendOk).2.countP
          isSendStartManual = 0 ∧
        Effect.scheduleSetState DeviceState.connecting ∉
          (start_listening_impl s openResult reinitOk abortSendOk).2 ∧
        Effect.scheduleSetState DeviceState.listening ∉
          (start_listening_impl s openResult reinitOk abortSendOk).2)) ∧
    (s.device_state = DeviceState.idle → s.audioChannelOpened = false →
      openResult = some true → s.hasAudioCodec = true → reinitOk = true →
      ((start_listening_impl s openResult reinitOk abortSendOk).2.countP
          isSendStartManual = 1 ∧
        List.Sublist
          [Effect.scheduleSetState DeviceState.connecting, Effect.openAudioChannel 10,
           Effect.reinitInputStream, Effect.sendStartListening ListeningMode.manual,
           Effect.scheduleSetState DeviceState.listening]
          (start_listening_impl s openResult reinitOk abortSendOk).2 ∧
        Effect.scheduleSetState DeviceState.idle ∉
          (start_listening_impl s openResult reinitOk abortSendOk).2)) ∧
    (s.device_state = DeviceState.idle → s.audioChannelOpened = false →
      (openResult = some false ∨ openResult = none) →
      (Effect.alert "Error" "Failed to open audio channel" ∈
          (start_listening_impl s openResult reinitOk abortSendOk).2 ∧
        Effect.scheduleSetState DeviceState.idle ∈
          (start_listening_impl s openResult reinitOk abortSendOk).2 ∧
        Effect.scheduleSetState DeviceState.listening ∉
          (start_listening_impl s openResult reinitOk abortSendOk).2 ∧
        (start_listening_impl s openResult reinitOk abortSendOk).2.countP
          isSendStartManual = 0)) := by
  rcases s with ⟨ds, kl, ab, tts, hc, aip, hw, wp, wr, hpr, aco, subs⟩
  simp only at hp
  subst hp
  refine ⟨?_, ?_, ?_⟩
  · intro hne
    cases ds <;>
      simp only [start_listening_impl, startListenFinish, abort_speaking] <;>
      (repeat' split) <;> simp_all [isSendStartManual]
  · intro hds haco hopen hcodec hre
    simp only at haco hcodec
    subst hds haco hopen hcodec hre
    simp only [start_listening_impl, startListenFinish]
    (repeat' split) <;> simp_all [isSendStartManual]
  · intro hds haco hopen
    simp only at haco
    subst hds haco
    rcases hopen with h | h <;> subst h <;>
      simp only [start_listening_impl, startListenFinish] <;>
      (repeat' split) <;> simp_all [isSendStartManual]

/-- Witness for C7 at a concrete idle state, for the success and the
open-failure runs. -/
theorem C7_witness :
    ((start_listening_impl sampleIdle (some true) true true).2.countP
        isSendStartManual = 1 ∧
      Effect.scheduleSetState DeviceState.idle ∉
        (start_listening_impl sampleIdle (some true) true true).2) ∧
    (Effect.alert "Error" "Failed to open audio channel" ∈
        (start_listening_impl sampleIdle (some false) true true).2 ∧
      Effect.scheduleSetState DeviceState.listening ∉
        (start_listening_impl sampleIdle (some false) true true).2) := by
  have h1 := C7_start_listening_flow sampleIdle (some true) true true rfl
  have h2 := C7_start_listening_flow sampleIdle (some false) true true rfl
  have r1 := h1.2.1 rfl rfl rfl rfl rfl
  have r2 := h2.2.2 rfl rfl (Or.inl rfl)
  exact ⟨⟨r1.1, r1.2.2⟩, ⟨r2.1, r2.2.2.1⟩⟩

theorem entryActions_aborted (s : AppState) (st : DeviceState) :
    (entryActions s st).1.aborted = s.aborted := by
  cases st <;> simp only [entryActions] <;> (repeat' split) <;> simp

/-- Counterexample to claim C8 as stated: `abort_speaking` guards only
on the aborted flag, never on the device state (and the display abort
callback invokes it unguarded in any state), so at a concrete IDLE
state with `aborted == false` the call still flips the flag to true
while the device is not speaking. -/
theorem C8_counterexample :
    sampleIdle.aborted = false ∧
    sampleIdle.device_state ≠ DeviceState.speaking ∧
    (abort_speaking sampleIdle AbortReason.wakeWordDetected true).1.aborted = true := by
  exact ⟨rfl, by decide, by decide⟩

/-- Claim C8 (amended): the aborted flag transitions false→true
whenever `abort_speaking` runs with the flag clear, in any device state
(its only guard is the flag itself; the SPEAKING check lives in some
call sites but not in the display abort callback), and among the
embedded operations only the TTS-start handler resets it to false:
`set_device_state`, `on_network_error`, the audio handlers and
`start_listening_impl` never clear it. -/
theorem C8_aborted_flag_discipline :
    (∀ (s : AppState) (r : AbortReason) (ok : Bool), s.aborted = false →
      (abort_speaking s r ok).1.aborted = true) ∧
    (∀ s : AppState, (handle_tts_start s).1.aborted = false) ∧
    (∀ (s : AppState) (st : DeviceState), (set_device_state s st).1.aborted = s.aborted) ∧
    (∀ s : AppState, (on_network_error s).1.aborted = s.aborted) ∧
    (∀ s : AppState, (handle_output_audio s).1.aborted = s.aborted) ∧
    (∀ (s : AppState) (b : Bool), (handle_input_audio s b).1.aborted = s.aborted) ∧
    (∀ (s : AppState) (o : Option Bool) (r a : Bool),
      (start_listening_impl s o r a).1.aborted = false → s.aborted = false) := by
  refine ⟨?_, ?_, ?_, ?_, ?_, ?_, ?_⟩
  · intro s r ok h
    exact abort_speaking_sets_aborted s r ok h
  · intro s
    simp only [handle_tts_start]
    split <;> rfl
  · intro s st
    simp only [set_device_state]
    split
    · rfl
    · exact entryActions_aborted _ _
  · intro s
    simp only [on_network_error]
    (repeat' split) <;> rfl
  · intro s
    simp only [handle_output_audio]
    split <;> rfl
  · intro s b
    simp only [handle_input_audio]
    split <;> rfl
  · intro s o r a
    rcases s with ⟨ds, kl, ab, tts, hc, aip, hw, wp, wr, hpr, aco, subs⟩
    cases ds <;>
      simp only [start_listening_impl, startListenFinish, abort_speaking] <;>
      (repeat' split) <;> simp_all

/-- Witness for the amended C8 at concrete states. -/
theorem C8_witness :
    (abort_speaking sampleSpeaking AbortReason.noReason true).1.aborted = true ∧
    (handle_tts_start sampleSpeaking).1.aborted = false := by
  have h := C8_aborted_flag_discipline
  exact ⟨h.1 sampleSpeaking AbortReason.noReason true rfl, h.2.1 sampleSpeaking⟩

/-- A concrete state in CONNECTING, as during a channel-open attempt. -/
def sampleConnecting : AppState :=
  { device_state := DeviceState.connecting, keep_listening := true, aborted := false,
    is_tts_playing := false, hasAudioCodec := true, audioInputPaused := false,
    hasWakeWordDetector := true, wakeWordPaused := true, wakeWordRunning := false,
    hasProtocol := true, audioChannelOpened := true, subscribers := [] }

/-- Counterexample to claim C9 as stated: a network-error callback that
arrives while the device state is CONNECTING does not close the audio
channel (the close is guarded by `device_state != CONNECTING`), even
with the protocol present and the channel open. -/
theorem C9_counterexample :
    sampleConnecting.hasProtocol = true ∧ sampleConnecting.audioChannelOpened = true ∧
    Effect.closeAudioChannel ∉ (on_network_error sampleConnecting).2 := by
  exact ⟨rfl, rfl, by decide⟩

/-- Claim C9 (amended): every invocation of the network-error callback
stops auto-listening (`keep_listening` becomes false), schedules the
revert to IDLE and resumes wake-word detection if it was paused; the
audio channel is closed (not destroyed) only when the device state at
callback time is not CONNECTING — in CONNECTING the channel is left
open. -/
theorem C9_network_error_response (s : AppState) :
    (on_network_error s).1.keep_listening = false ∧
    Effect.scheduleSetState DeviceState.idle ∈ (on_network_error s).2 ∧
    (s.hasWakeWordDetector = true → s.wakeWordPaused = true →
      Effect.wakeWordResume ∈ (on_network_error s).2) ∧
    (s.device_state ≠ DeviceState.connecting → s.hasProtocol = true →
      Effect.closeAudioChannel ∈ (on_network_error s).2) ∧
    (s.device_state = DeviceState.connecting →
      Effect.closeAudioChannel ∉ (on_network_error s).2) := by
  rcases s with ⟨ds, kl, ab, tts, hc, aip, hw, wp, wr, hpr, aco, subs⟩
  cases ds <;> simp only [on_network_error] <;> (repeat' split) <;> simp_all

/-- Witness for the amended C9 at concrete states: outside CONNECTING
the channel is closed and the paused detector resumed; in CONNECTING it
is not closed. -/
theorem C9_witness :
    Effect.closeAudioChannel ∈ (on_network_error sampleIdle).2 ∧
    Effect.wakeWordResume ∈ (on_network_error sampleIdle).2 ∧
    Effect.closeAudioChannel ∉ (on_network_error sampleConnecting).2 := by
  have h1 := C9_network_error_response sampleIdle
  have h2 := C9_network_error_response sampleConnecting
  exact ⟨h1.2.2.2.1 (by decide) rfl, h1.2.2.1 rfl rfl, h2.2.2.2.2 rfl⟩

end Chatbot
